import Mathlib

/-!
Shallow embedding of the analytics core of the `hyperlit` repository
(`src/analytics/analytics_engine.py`, `src/analytics/ml_models.py`) in Lean 4,
together with theorems settling the frozen claims about it.

Conventions of the embedding:
* Python floats are modelled as exact rationals (`ℚ`).
* `numpy` square roots (the only genuinely irrational operations reached by
  the embedded code paths) are modelled by an explicit parameter
  `sqrtFn : ℚ → ℚ`, standing for the numeric library's square-root routine.
* Timestamps (`executed_at`, `datetime.utcnow()`) are modelled as `Nat`
  (seconds since the epoch), passed explicitly where the source reads a clock.
* Fallible calls into the database layer ("Trade Ledger Accessor") are
  modelled with `Except String`; a Python `try/except` block corresponds to a
  `match` on the `Except` value, and an uncaught exception to a propagated
  `Except.error`.
-/

namespace Hyperlit

/-- Trade side, `side ∈ {buy, sell}`. -/
inductive Side where
  | buy
  | sell
deriving DecidableEq, Repr

/-- A filled trade record, as consumed by the analytics engine
(the fields actually read by the embedded code). -/
structure Trade where
  id : Nat
  asset : String
  side : Side
  size : ℚ
  price : ℚ
  executed_at : Nat
deriving DecidableEq, Repr

/-- Per-trade signed PnL as computed inside
`_calculate_performance_metrics` (analytics_engine.py lines 111-114):
`row['size'] * row['price'] if row['side'] == 'sell' else -row['size'] * row['price']`. -/
def perfPnl (t : Trade) : ℚ :=
  if t.side = Side.sell then t.size * t.price else -t.size * t.price

/-- Per-trade signed PnL as computed inside
`_calculate_risk_metrics` (analytics_engine.py lines 171-174); textually the
same lambda as in the performance path. -/
def riskPnl (t : Trade) : ℚ :=
  if t.side = Side.sell then t.size * t.price else -t.size * t.price

/-- Per-trade signed PnL as computed inside
`_extract_features` (ml_models.py lines 89-92); textually the same lambda. -/
def mlPnl (t : Trade) : ℚ :=
  if t.side = Side.sell then t.size * t.price else -t.size * t.price

/-- The signed-PnL rule as worded by the spec (§3): for a trade,
`pnl = size*price` if `side=sell`, else `-(size*price)`.  Written from the
spec's words for the refinement comparison with the three per-site lambdas. -/
def signedPnlSpec (t : Trade) : ℚ :=
  if t.side = Side.sell then t.size * t.price else -(t.size * t.price)

/-- Discrete risk level (`models.RiskLevel`). -/
inductive RiskLevel where
  | low
  | medium
  | high
  | extreme
deriving DecidableEq, Repr

/-- Embeds `_assess_risk_level` (analytics_engine.py lines 275-322): additive risk
scoring from volatility, max drawdown and VaR-95, followed by level tiering
and a `min(risk_score, 1.0)` cap on the returned score. -/
def assess_risk_level (volatility max_drawdown var_95 : ℚ) : RiskLevel × ℚ :=
  let s0 : ℚ := 0
  let s1 : ℚ :=
    if volatility > 50 then s0 + 0.3
    else if volatility > 30 then s0 + 0.2
    else if volatility > 15 then s0 + 0.1
    else s0
  let s2 : ℚ :=
    if max_drawdown > 30 then s1 + 0.4
    else if max_drawdown > 20 then s1 + 0.3
    else if max_drawdown > 10 then s1 + 0.2
    else if max_drawdown > 5 then s1 + 0.1
    else s1
  let s3 : ℚ :=
    if |var_95| > 10 then s2 + 0.3
    else if |var_95| > 5 then s2 + 0.2
    else if |var_95| > 2 then s2 + 0.1
    else s2
  let level : RiskLevel :=
    if s3 ≥ 0.7 then RiskLevel.extreme
    else if s3 ≥ 0.5 then RiskLevel.high
    else if s3 ≥ 0.3 then RiskLevel.medium
    else RiskLevel.low
  (level, min s3 1)

/-! ### List helpers mirroring pandas/numpy primitives -/

/-- pandas `Series.min()` on a nonempty series; `0` only as a junk value for
the empty list (every call site guards emptiness first). -/
def listMin : List ℚ → ℚ
  | [] => 0
  | x :: xs => xs.foldl min x

/-- pandas `Series.max()` on a nonempty series; `0` only as a junk value for
the empty list (every call site guards emptiness first). -/
def listMax : List ℚ → ℚ
  | [] => 0
  | x :: xs => xs.foldl max x

/-- pandas `Series.cumsum()`. -/
def cumsum : List ℚ → List ℚ
  | [] => []
  | p :: ps => p :: (cumsum ps).map (fun c => p + c)

/-- pandas `Series.expanding().max()` (running maximum). -/
def runningMax : List ℚ → List ℚ
  | [] => []
  | c :: cs => c :: (runningMax cs).map (fun m => max c m)

/-- Insertion step of the sort used to model `DataFrame.sort_values` on `executed_at`
on `(executed_at, pnl)` rows. -/
def insertByTime (p : Nat × ℚ) : List (Nat × ℚ) → List (Nat × ℚ)
  | [] => [p]
  | q :: qs => if p.1 ≤ q.1 then p :: q :: qs else q :: insertByTime p qs

/-- Embeds `DataFrame.sort_values` on `executed_at` on `(executed_at, pnl)` rows,
modelled as an insertion sort on the timestamp. -/
def sortByTime : List (Nat × ℚ) → List (Nat × ℚ)
  | [] => []
  | p :: ps => insertByTime p (sortByTime ps)

/-- Insertion step of the ascending sort on rationals used to model
`numpy`'s internal sort in `np.percentile`. -/
def insertQ (x : ℚ) : List ℚ → List ℚ
  | [] => [x]
  | y :: ys => if x ≤ y then x :: y :: ys else y :: insertQ x ys

/-- Ascending sort on rationals (insertion sort). -/
def sortQ : List ℚ → List ℚ
  | [] => []
  | x :: xs => insertQ x (sortQ xs)

/-- Embeds `np.percentile(values, 5)` with the default linear interpolation:
position `(n-1)*5/100` into the ascending sort, interpolating between the
two neighbouring order statistics.  Call sites guard `n > 0`. -/
def percentile05 (l : List ℚ) : ℚ :=
  let s := sortQ l
  let pos : ℚ := ((l.length : ℚ) - 1) * 5 / 100
  let lo := ⌊pos⌋.toNat
  let hi := ⌈pos⌉.toNat
  let a := s.getD lo 0
  let b := s.getD hi 0
  a + (pos - ⌊pos⌋) * (b - a)

/-! ### Max drawdown -/

/-- Embeds `_calculate_max_drawdown_pct` (analytics_engine.py lines 261-273).
Its argument is the DataFrame restricted to the columns it reads: rows of
`(executed_at, pnl)` where the `pnl` column was filled in by the caller.
Sorts by execution time, forms the cumulative PnL, its running maximum, the
drawdown at each point, and returns `abs(min drawdown) / 10000 * 100`. -/
def calculate_max_drawdown_pct (rows : List (Nat × ℚ)) : ℚ :=
  if rows = [] then 0
  else
    let sorted := sortByTime rows
    let cumulative := cumsum (sorted.map Prod.snd)
    let rmax := runningMax cumulative
    let drawdown := List.zipWith (fun c m => c - m) cumulative rmax
    let max_drawdown := |listMin drawdown|
    max_drawdown / 10000 * 100

/-! ### Performance metrics -/

/-- Embeds `models.PerformanceMetrics`. -/
structure PerformanceMetrics where
  total_return_pct : ℚ
  annualized_return_pct : ℚ
  total_trades : Nat
  profitable_trades : Nat
  win_rate_pct : ℚ
  avg_win_pct : ℚ
  avg_loss_pct : ℚ
  largest_win_pct : ℚ
  largest_loss_pct : ℚ
  profit_factor : ℚ
  recovery_factor : ℚ
  calmar_ratio : ℚ
deriving DecidableEq, Repr

/-- Embeds `_empty_performance_metrics` (analytics_engine.py lines 349-364). -/
def empty_performance_metrics : PerformanceMetrics :=
  { total_return_pct := 0
    annualized_return_pct := 0
    total_trades := 0
    profitable_trades := 0
    win_rate_pct := 0
    avg_win_pct := 0
    avg_loss_pct := 0
    largest_win_pct := 0
    largest_loss_pct := 0
    profit_factor := 0
    recovery_factor := 0
    calmar_ratio := 0 }

/-- Embeds `_calculate_performance_metrics` (analytics_engine.py lines 99-161). -/
def calculate_performance_metrics (trades : List Trade) (days : Nat) :
    PerformanceMetrics :=
  if trades = [] then empty_performance_metrics
  else
    let pnls := trades.map perfPnl
    let total_pnl := pnls.sum
    let total_trades := trades.length
    let profitable_trades := (pnls.filter (fun p => 0 < p)).length
    let win_rate : ℚ :=
      if total_trades > 0 then (profitable_trades : ℚ) / (total_trades : ℚ) * 100 else 0
    let winning_trades := pnls.filter (fun p => 0 < p)
    let losing_trades := pnls.filter (fun p => p < 0)
    let avg_win : ℚ :=
      if winning_trades.length > 0 then winning_trades.sum / (winning_trades.length : ℚ) else 0
    let avg_loss : ℚ :=
      if losing_trades.length > 0 then |losing_trades.sum / (losing_trades.length : ℚ)| else 0
    let largest_win : ℚ := if winning_trades.length > 0 then listMax winning_trades else 0
    let largest_loss : ℚ := if losing_trades.length > 0 then |listMin losing_trades| else 0
    let total_wins : ℚ := if winning_trades.length > 0 then winning_trades.sum else 0
    let total_losses : ℚ := if losing_trades.length > 0 then |losing_trades.sum| else 0
    let profit_factor : ℚ := if total_losses > 0 then total_wins / total_losses else 0
    let starting_capital : ℚ := 10000
    let total_return_pct := total_pnl / starting_capital * 100
    let annualized_return : ℚ :=
      if days > 0 then total_return_pct * (365 / (days : ℚ)) else 0
    let max_drawdown_pct :=
      calculate_max_drawdown_pct (trades.map (fun t => (t.executed_at, perfPnl t)))
    let recovery_factor : ℚ :=
      if max_drawdown_pct > 0 then total_return_pct / max_drawdown_pct else 0
    let calmar_ratio : ℚ :=
      if max_drawdown_pct > 0 then annualized_return / max_drawdown_pct else 0
    { total_return_pct := total_return_pct
      annualized_return_pct := annualized_return
      total_trades := total_trades
      profitable_trades := profitable_trades
      win_rate_pct := win_rate
      avg_win_pct := avg_win / starting_capital * 100
      avg_loss_pct := avg_loss / starting_capital * 100
      largest_win_pct := largest_win / starting_capital * 100
      largest_loss_pct := largest_loss / starting_capital * 100
      profit_factor := profit_factor
      recovery_factor := recovery_factor
      calmar_ratio := calmar_ratio }

/-! ### Risk metrics -/

/-- Embeds `models.RiskMetrics`. -/
structure RiskMetrics where
  max_drawdown_pct : ℚ
  current_drawdown_pct : ℚ
  volatility_pct : ℚ
  downside_deviation_pct : ℚ
  value_at_risk_95_pct : ℚ
  conditional_var_95_pct : ℚ
  sharpe_ratio : ℚ
  sortino_ratio : ℚ
  risk_level : RiskLevel
  risk_score : ℚ
deriving DecidableEq, Repr

/-- Embeds `_empty_risk_metrics` (analytics_engine.py lines 366-379). -/
def empty_risk_metrics : RiskMetrics :=
  { max_drawdown_pct := 0
    current_drawdown_pct := 0
    volatility_pct := 0
    downside_deviation_pct := 0
    value_at_risk_95_pct := 0
    conditional_var_95_pct := 0
    sharpe_ratio := 0
    sortino_ratio := 0
    risk_level := RiskLevel.low
    risk_score := 0 }

/-- Population mean of a list (`np.mean`); call sites guard emptiness. -/
def listMean (l : List ℚ) : ℚ := l.sum / (l.length : ℚ)

/-- Population variance of a list, the quantity under the square root in
`np.std` (default `ddof=0`). -/
def listVar (l : List ℚ) : ℚ :=
  (l.map (fun r => (r - listMean l) ^ 2)).sum / (l.length : ℚ)

/-- Embeds `_calculate_risk_metrics` (analytics_engine.py lines 163-222).
`np.std x` is modelled as `sqrtFn (listVar x)` and `np.sqrt 252` as
`sqrtFn 252`, with `sqrtFn` the numeric library's square root. -/
def calc_risk_metrics (sqrtFn : ℚ → ℚ) (trades : List Trade) : RiskMetrics :=
  if trades = [] then empty_risk_metrics
  else
    let returns := trades.map riskPnl
    let volatility_daily := sqrtFn (listVar returns)
    let volatility_annualized := volatility_daily * sqrtFn 252 / 10000 * 100
    let negative_returns := returns.filter (fun r => r < 0)
    let downside_deviation : ℚ :=
      if negative_returns.length > 0 then sqrtFn (listVar negative_returns) else 0
    let downside_deviation_pct := downside_deviation / 10000 * 100
    let var_95 : ℚ :=
      if returns.length > 0 then percentile05 returns / 10000 * 100 else 0
    let cvar_95 : ℚ :=
      if returns.length > 0 then
        listMean (returns.filter (fun r => r ≤ percentile05 returns)) / 10000 * 100
      else 0
    let avg_return := listMean returns
    let sharpe_ratio : ℚ := if volatility_daily > 0 then avg_return / volatility_daily else 0
    let sortino_ratio : ℚ :=
      if downside_deviation > 0 then avg_return / downside_deviation else 0
    let max_drawdown_pct :=
      calculate_max_drawdown_pct (trades.map (fun t => (t.executed_at, riskPnl t)))
    let current_drawdown_pct : ℚ := 0
    let lv := assess_risk_level volatility_annualized max_drawdown_pct var_95
    { max_drawdown_pct := max_drawdown_pct
      current_drawdown_pct := current_drawdown_pct
      volatility_pct := volatility_annualized
      downside_deviation_pct := downside_deviation_pct
      value_at_risk_95_pct := var_95
      conditional_var_95_pct := cvar_95
      sharpe_ratio := sharpe_ratio
      sortino_ratio := sortino_ratio
      risk_level := lv.1
      risk_score := lv.2 }

/-! ### Market metrics -/

/-- Embeds `models.MarketMetrics`. -/
structure MarketMetrics where
  correlation_to_btc : ℚ
  correlation_to_eth : ℚ
  beta_to_market : ℚ
  alpha : ℚ
  tracking_error_pct : ℚ
  information_ratio : ℚ
deriving DecidableEq, Repr

/-- Embeds `_calculate_market_metrics` (analytics_engine.py lines 224-240): market
data integration is absent, so placeholder values are returned for every
input, including the empty trade list. -/
def calculate_market_metrics (_trades : List Trade) (_days : Nat) : MarketMetrics :=
  { correlation_to_btc := 0
    correlation_to_eth := 0
    beta_to_market := 1
    alpha := 0
    tracking_error_pct := 0
    information_ratio := 0 }

/-! ### Trading frequency -/

/-- A value of the heterogeneous dict returned by `_analyze_trading_frequency`. -/
inductive FreqValue where
  | num : ℚ → FreqValue
  | hourCounts : List (Nat × Nat) → FreqValue
  | dayCounts : List (String × Nat) → FreqValue
deriving DecidableEq, Repr

/-- Calendar date of an epoch-second timestamp (`dt.date`), as a day index. -/
def dateOf (t : Nat) : Nat := t / 86400

/-- Hour-of-day of an epoch-second timestamp (`dt.hour`). -/
def hourOf (t : Nat) : Nat := t % 86400 / 3600

/-- Weekday name of an epoch-second timestamp (`dt.day_name`); the epoch
day 1970-01-01 was a Thursday. -/
def dayNameOf (t : Nat) : String :=
  match (t / 86400 + 3) % 7 with
  | 0 => "Monday"
  | 1 => "Tuesday"
  | 2 => "Wednesday"
  | 3 => "Thursday"
  | 4 => "Friday"
  | 5 => "Saturday"
  | _ => "Sunday"

/-- Number of occurrences of `a` in `l`. -/
def countEq [DecidableEq α] (l : List α) (a : α) : Nat :=
  (l.filter (fun x => x = a)).length

/-- Insertion step of the descending-by-count sort in `valueCounts`. -/
def insertByCount [DecidableEq α] (p : α × Nat) : List (α × Nat) → List (α × Nat)
  | [] => [p]
  | q :: qs => if q.2 < p.2 then p :: q :: qs else q :: insertByCount p qs

/-- Descending-by-count sort (stable insertion sort). -/
def sortByCountDesc [DecidableEq α] : List (α × Nat) → List (α × Nat)
  | [] => []
  | p :: ps => insertByCount p (sortByCountDesc ps)

/-- pandas `Series.value_counts()`: distinct values with their counts, most
frequent first. -/
def valueCounts [DecidableEq α] (l : List α) : List (α × Nat) :=
  sortByCountDesc (l.dedup.map (fun a => (a, countEq l a)))

/-- Ascending sort on naturals, for the time-difference computation. -/
def sortNat (l : List Nat) : List Nat :=
  l.mergeSort (fun a b => a ≤ b)

/-- Consecutive differences of a list (`Series.diff().dropna()`). -/
def consecutiveDiffs : List Nat → List ℚ
  | [] => []
  | [_] => []
  | a :: b :: rest => ((b : ℚ) - (a : ℚ)) :: consecutiveDiffs (b :: rest)

/-- Embeds `_calculate_avg_time_between_trades` (analytics_engine.py lines 324-333):
mean gap between consecutive time-sorted trades, in minutes. -/
def calculate_avg_time_between_trades (trades : List Trade) : ℚ :=
  if trades.length < 2 then 0
  else
    let sorted := sortNat (trades.map Trade.executed_at)
    let diffs := consecutiveDiffs sorted
    listMean diffs / 60

/-- Embeds `_calculate_trading_intensity` (analytics_engine.py lines 335-347):
`min(trades_per_day / 50, 1)` (the size-variance local is computed but
unused in the source and is dropped here). -/
def calculate_trading_intensity (trades : List Trade) : ℚ :=
  if trades = [] then 0
  else
    let trades_per_day : ℚ :=
      (trades.length : ℚ) / ((trades.map (fun t => dateOf t.executed_at)).dedup.length : ℚ)
    min (trades_per_day / 50) 1

/-- Embeds `_analyze_trading_frequency` (analytics_engine.py lines 242-259): returns
the empty dict on empty input, else the five frequency statistics. -/
def analyze_trading_frequency (trades : List Trade) : List (String × FreqValue) :=
  if trades = [] then []
  else
    let trades_per_day : ℚ :=
      (trades.length : ℚ) / ((trades.map (fun t => dateOf t.executed_at)).dedup.length : ℚ)
    [ ("trades_per_day", FreqValue.num trades_per_day),
      ("most_active_hours",
        FreqValue.hourCounts ((valueCounts (trades.map (fun t => hourOf t.executed_at))).take 3)),
      ("most_active_days",
        FreqValue.dayCounts ((valueCounts (trades.map (fun t => dayNameOf t.executed_at))).take 3)),
      ("avg_time_between_trades_minutes", FreqValue.num (calculate_avg_time_between_trades trades)),
      ("trading_intensity_score", FreqValue.num (calculate_trading_intensity trades)) ]

/-! ### Strategy optimizer -/

/-- The `risk_settings` sub-dict of `_generate_optimized_settings`. -/
structure RiskSettings where
  max_trades_per_day : ℤ
  max_consecutive_losses : ℤ
  correlation_limit : ℚ
deriving DecidableEq, Repr

/-- The settings dict produced by `_generate_optimized_settings`. -/
structure OptimizedSettings where
  copy_percentage : ℚ
  max_position_size : ℚ
  stop_loss_percentage : ℚ
  take_profit_percentage : ℚ
  risk_settings : RiskSettings
deriving DecidableEq, Repr

/-- Python `int()`: truncation toward zero on a rational. -/
def pyInt (q : ℚ) : ℤ := if 0 ≤ q then ⌊q⌋ else ⌈q⌉

/-- Embeds `_generate_optimized_settings` (analytics_engine.py lines 431-461). -/
def generate_optimized_settings
    (risk_tolerance max_drawdown_pct target_return_pct : ℚ) : OptimizedSettings :=
  { copy_percentage := min (risk_tolerance * 20) 15
    max_position_size := 1000 * (1 + risk_tolerance)
    stop_loss_percentage := max_drawdown_pct * 0.5
    take_profit_percentage := target_return_pct * 0.3
    risk_settings :=
      { max_trades_per_day := pyInt (5 * (1 + risk_tolerance))
        max_consecutive_losses := pyInt (3 * (2 - risk_tolerance))
        correlation_limit := 0.8 - risk_tolerance * 0.2 } }

/-- Embeds `_recommend_leaders_for_follower` (analytics_engine.py lines 480-494):
fixed placeholder recommendations for every input. -/
def recommend_leaders_for_follower
    (_risk_tolerance _target_return_pct : ℚ) : List String :=
  [ "0x1234567890123456789012345678901234567890",
    "0x2345678901234567890123456789012345678901",
    "0x3456789012345678901234567890123456789012" ]

/-- Embeds `_calculate_portfolio_allocation` (analytics_engine.py lines 496-510):
equal weights of `100 / count` per leader, empty map for no leaders. -/
def calculate_portfolio_allocation
    (leaders : List String) (_risk_tolerance : ℚ) : List (String × ℚ) :=
  if leaders = [] then []
  else
    let weight_per_leader : ℚ := 100 / (leaders.length : ℚ)
    leaders.map (fun leader => (leader, weight_per_leader))

/-- Embeds `_calculate_expected_improvement` (analytics_engine.py lines 463-478):
fixed placeholder figures. -/
structure ExpectedImprovement where
  return_improvement_pct : ℚ
  risk_reduction_pct : ℚ
  sharpe_improvement : ℚ
  drawdown_reduction_pct : ℚ
deriving DecidableEq, Repr

/-- Embeds `_calculate_expected_improvement`, constant in the source. -/
def calculate_expected_improvement
    (_current : PerformanceMetrics) (_settings : OptimizedSettings) : ExpectedImprovement :=
  { return_improvement_pct := 2.5
    risk_reduction_pct := 15
    sharpe_improvement := 0.3
    drawdown_reduction_pct := 20 }

/-- Result record of `optimize_follower_strategy` (`models.FollowerOptimization`,
the fields the engine fills). -/
structure FollowerOptimization where
  follower_id : Nat
  current_performance : PerformanceMetrics
  current_risk : RiskMetrics
  optimized_settings : OptimizedSettings
  expected_improvement : ExpectedImprovement
  risk_assessment : RiskMetrics
  recommended_leaders : List String
  portfolio_allocation : List (String × ℚ)
  confidence_score : ℚ
deriving DecidableEq, Repr

/-- Embeds `optimize_follower_strategy` (analytics_engine.py lines 381-429); the
follower's 90-day trade history (`get_follower_trades`) is its `trades`
argument. -/
def optimize_follower_strategy (sqrtFn : ℚ → ℚ) (follower_id : Nat)
    (trades : List Trade)
    (risk_tolerance max_drawdown_pct target_return_pct : ℚ) : FollowerOptimization :=
  let current_metrics := calculate_performance_metrics trades 90
  let current_risk := calc_risk_metrics sqrtFn trades
  let optimized_settings :=
    generate_optimized_settings risk_tolerance max_drawdown_pct target_return_pct
  let expected_improvement := calculate_expected_improvement current_metrics optimized_settings
  let recommended_leaders := recommend_leaders_for_follower risk_tolerance target_return_pct
  let portfolio_allocation := calculate_portfolio_allocation recommended_leaders risk_tolerance
  { follower_id := follower_id
    current_performance := current_metrics
    current_risk := current_risk
    optimized_settings := optimized_settings
    expected_improvement := expected_improvement
    risk_assessment := current_risk
    recommended_leaders := recommended_leaders
    portfolio_allocation := portfolio_allocation
    confidence_score := 0.75 }

/-! ### Prediction pipeline (ml_models.py) -/

/-- The prediction dict returned by `predict_leader_performance`. -/
structure PredictionResult where
  leader_address : String
  horizon_days : Nat
  predicted_return_pct : ℚ
  probability_of_profit : ℚ
  expected_max_drawdown_pct : ℚ
  confidence : ℚ
  model_version : String
deriving DecidableEq, Repr

/-- Embeds `predict_leader_performance` (ml_models.py lines 26-73).  Its first step
is the minimum-data gate `if len(trades) < 20: return None`; everything after
the gate (feature extraction, model training/inference and the confidence
threshold) depends on the process-wide `sklearn` model bundle and is
abstracted here as the continuation `rest`. -/
def predict_leader_performance
    (rest : List Trade → Nat → ℚ → Option PredictionResult)
    (trades : List Trade) (horizon_days : Nat) (confidence_threshold : ℚ) :
    Option PredictionResult :=
  if trades.length < 20 then none
  else rest trades horizon_days confidence_threshold

/-! ### Backtest job tracker -/

/-- The `status` strings of a backtest job record. -/
inductive JobStatus where
  | queued
  | running
  | completed
  | failed
deriving DecidableEq, Repr

/-- Configuration snapshot stored by `start_backtest`. -/
structure BacktestConfig where
  leader_address : String
  start_date : Nat
  end_date : Nat
  initial_capital : ℚ
  copy_percentage : ℚ
deriving DecidableEq, Repr

/-- The mock results dict written by `execute_backtest` on completion
(analytics_engine.py lines 622-628). -/
structure BacktestResults where
  total_return_pct : ℚ
  max_drawdown_pct : ℚ
  sharpe_ratio : ℚ
  total_trades : Nat
  win_rate_pct : ℚ
deriving DecidableEq, Repr

/-- The constant results payload of the simulated backtest. -/
def mock_backtest_results : BacktestResults :=
  { total_return_pct := 15.7
    max_drawdown_pct := 8.3
    sharpe_ratio := 1.42
    total_trades := 45
    win_rate_pct := 67.5 }

/-- One entry of `self.active_backtests`. -/
structure BacktestJob where
  status : JobStatus
  config : BacktestConfig
  created_at : Nat
  progress : Nat
  started_at : Option Nat
  completed_at : Option Nat
  results : Option BacktestResults
  error : Option String
deriving DecidableEq, Repr

/-- The in-memory job table `self.active_backtests`, keyed by the opaque id. -/
def BacktestState : Type := String → Option BacktestJob

/-- The empty job table (`self.active_backtests = {}` at construction). -/
def emptyBacktests : BacktestState := fun _ => none

/-- Embeds `start_backtest` (analytics_engine.py lines 579-603): stores a fresh
`queued` record under `backtest_id` (a freshly generated uuid in the source,
here an explicit argument) with `progress = 0` and `created_at = now`. -/
def start_backtest (st : BacktestState) (backtest_id : String)
    (config : BacktestConfig) (now : Nat) : BacktestState :=
  fun k =>
    if k = backtest_id then
      some { status := JobStatus.queued
             config := config
             created_at := now
             progress := 0
             started_at := none
             completed_at := none
             results := none
             error := none }
    else st k

/-- First mutation phase of `execute_backtest` (lines 608-614): the
membership check, then `status = "running"`, `started_at = utcnow()`. -/
def execute_begin (st : BacktestState) (backtest_id : String) (now : Nat) :
    BacktestState :=
  match st backtest_id with
  | none => st
  | some j =>
      fun k =>
        if k = backtest_id then
          some { j with status := JobStatus.running, started_at := some now }
        else st k

/-- Second mutation phase of `execute_backtest` (lines 619-628), after the
simulated processing delay: `status = "completed"`, `completed_at`,
mock results. -/
def execute_finish (st : BacktestState) (backtest_id : String) (now : Nat) :
    BacktestState :=
  match st backtest_id with
  | none => st
  | some j =>
      fun k =>
        if k = backtest_id then
          some { j with status := JobStatus.completed,
                        completed_at := some now,
                        results := some mock_backtest_results }
        else st k

/-- The `except` handler of `execute_backtest` (lines 630-634):
`status = "failed"`, `error = str(e)` when the id is still present. -/
def execute_fail (st : BacktestState) (backtest_id : String) (err : String) :
    BacktestState :=
  match st backtest_id with
  | none => st
  | some j =>
      fun k =>
        if k = backtest_id then
          some { j with status := JobStatus.failed, error := some err }
        else st k

/-- Embeds `execute_backtest` (analytics_engine.py lines 605-634), success path:
early return when the id is absent, otherwise the two mutation phases with
the clock read at each (`t1` at start, `t2` at completion). -/
def execute_backtest (st : BacktestState) (backtest_id : String)
    (t1 t2 : Nat) : BacktestState :=
  match st backtest_id with
  | none => st
  | some _ => execute_finish (execute_begin st backtest_id t1) backtest_id t2

/-- Embeds `get_backtest_status` (analytics_engine.py lines 636-639):
`self.active_backtests.get(backtest_id)`. -/
def get_backtest_status (st : BacktestState) (backtest_id : String) :
    Option BacktestJob :=
  st backtest_id

/-! ### Analytics facade -/

/-- The aggregate-statistics row returned by the ledger's
`get_leader_performance_metrics` (database.py); the facade only tests it for
presence. -/
structure AggregateStats where
  trading_days : Nat
  total_trades : Nat
  total_pnl : ℚ
  win_rate : ℚ
  sharpe_ratio : ℚ
  max_drawdown : ℚ
deriving DecidableEq, Repr

/-- The parallel time-series arrays returned by the ledger's
`get_time_series_data`; passed through by the facade. -/
structure TimeSeriesData where
  dates : List Nat
  daily_pnl : List ℚ
  cumulative_pnl : List ℚ
  daily_trades : List Nat
  daily_volume : List ℚ
deriving DecidableEq, Repr

/-- Embeds `models.LeaderPerformanceAnalysis`, the fields the engine fills
(ML predictions are attached only on request and inside their own
`try/except`; the default-path value `None` is used here). -/
structure LeaderAnalysis where
  leader_address : String
  analysis_period_days : Nat
  performance_metrics : PerformanceMetrics
  risk_metrics : RiskMetrics
  market_metrics : MarketMetrics
  trading_frequency : List (String × FreqValue)
  asset_allocation : List (String × ℚ)
  time_series_data : TimeSeriesData
deriving DecidableEq, Repr

/-- Embeds `analyze_leader_performance` (analytics_engine.py lines 28-97).  The four
ledger reads are its `Except`-valued arguments; the surrounding `try/except`
returns `None` on any raised exception, and the `if not metrics` /
`if not trades` gates return `None` on absent or empty data. -/
def analyze_leader_performance (sqrtFn : ℚ → ℚ) (leader_address : String)
    (metricsRes : Except String (Option AggregateStats))
    (tradesRes : Except String (List Trade))
    (allocRes : Except String (List (String × ℚ)))
    (tsRes : Except String TimeSeriesData)
    (days : Nat) : Option LeaderAnalysis :=
  match metricsRes with
  | Except.error _ => none
  | Except.ok none => none
  | Except.ok (some _) =>
    match tradesRes with
    | Except.error _ => none
    | Except.ok trades =>
      if trades = [] then none
      else
        match allocRes with
        | Except.error _ => none
        | Except.ok alloc =>
          match tsRes with
          | Except.error _ => none
          | Except.ok ts =>
            some { leader_address := leader_address
                   analysis_period_days := days
                   performance_metrics := calculate_performance_metrics trades days
                   risk_metrics := calc_risk_metrics sqrtFn trades
                   market_metrics := calculate_market_metrics trades days
                   trading_frequency := analyze_trading_frequency trades
                   asset_allocation := alloc
                   time_series_data := ts }

/-- Embeds `calculate_risk_metrics` facade method (analytics_engine.py lines
512-523).  There is no `try/except` here: an exception from the ledger read
(`tradesRes = error`) propagates; an empty trade list yields `None`. -/
def calculate_risk_metrics (sqrtFn : ℚ → ℚ)
    (tradesRes : Except String (List Trade)) :
    Except String (Option RiskMetrics) := do
  let trades ← tradesRes
  if trades = [] then pure none
  else pure (some (calc_risk_metrics sqrtFn trades))

/-- One row of the `compare_leaders` result. -/
structure ComparisonRow where
  return_pct : ℚ
  sharpe : ℚ
  max_drawdown : ℚ
  win_rate : ℚ
  total_trades : Nat
  volatility : ℚ
deriving DecidableEq, Repr

/-- Embeds `compare_leaders` (analytics_engine.py lines 641-666).  `fetched` pairs
each requested address with the outcome of its ledger read; no `try/except`
protects the loop, so a raised read propagates; addresses with empty trade
sets are skipped. -/
def compare_leaders (sqrtFn : ℚ → ℚ)
    (fetched : List (String × Except String (List Trade))) (days : Nat) :
    Except String (List (String × ComparisonRow)) :=
  match fetched with
  | [] => Except.ok []
  | (address, res) :: rest => do
    let trades ← res
    let tail ← compare_leaders sqrtFn rest days
    if trades = [] then pure tail
    else
      let performance := calculate_performance_metrics trades days
      let risk := calc_risk_metrics sqrtFn trades
      pure ((address,
        { return_pct := performance.total_return_pct
          sharpe := risk.sharpe_ratio
          max_drawdown := risk.max_drawdown_pct
          win_rate := performance.win_rate_pct
          total_trades := performance.total_trades
          volatility := risk.volatility_pct }) :: tail)

/-- The `portfolio_metrics` dict of `analyze_portfolio`. -/
structure PortfolioMetrics where
  expected_return_pct : ℚ
  expected_volatility_pct : ℚ
  sharpe_ratio : ℚ
  max_drawdown_pct : ℚ
deriving DecidableEq, Repr

/-- The weighted accumulation loop of `analyze_portfolio` (lines 744-754):
`for i, address in enumerate(addresses)` with a propagating ledger read per
address; an address with an empty trade set contributes nothing (the index
still advances), and only inside `if trades:` is `weights[i]` read — so a
weight list that is too short is Python's `IndexError` exactly when a
nonempty-trade address runs past it. -/
def portfolio_loop (sqrtFn : ℚ → ℚ) (weights : List ℚ) :
    List (String × Except String (List Trade)) → Nat →
    Except String (ℚ × ℚ × ℚ)
  | [], _ => Except.ok (0, 0, 0)
  | (_, res) :: rest, i => do
    let trades ← res
    let contrib ←
      if trades = [] then
        (Except.ok ((0 : ℚ), (0 : ℚ), (0 : ℚ)) : Except String (ℚ × ℚ × ℚ))
      else
        match weights.get? i with
        | none => Except.error ("IndexError")
        | some w =>
          let performance := calculate_performance_metrics trades 30
          let risk := calc_risk_metrics sqrtFn trades
          Except.ok (performance.total_return_pct * w, risk.volatility_pct * w,
            risk.max_drawdown_pct * w)
    let acc ← portfolio_loop sqrtFn weights rest (i + 1)
    pure (contrib.1 + acc.1, contrib.2.1 + acc.2.1, contrib.2.2 + acc.2.2)

/-- Embeds `analyze_portfolio` (analytics_engine.py lines 722-768).  A `None` or
empty `weights` argument is replaced by equal weights `1/len(addresses)`
(Python's `ZeroDivisionError` when `addresses` is empty); weights are then
normalized by their sum (`ZeroDivisionError` when it is zero).  No
`try/except` protects the body, so these and any ledger exception propagate. -/
def analyze_portfolio (sqrtFn : ℚ → ℚ)
    (fetched : List (String × Except String (List Trade)))
    (weightsOpt : Option (List ℚ)) :
    Except String (PortfolioMetrics × List (String × ℚ)) := do
  let supplied := match weightsOpt with
    | none => []
    | some ws => ws
  let raw ← if supplied = [] then
      if fetched.length = 0 then Except.error ("ZeroDivisionError")
      else Except.ok (List.replicate fetched.length (1 / (fetched.length : ℚ)))
    else Except.ok supplied
  let total_weight := raw.sum
  let weights ← if total_weight = 0 then (Except.error ("ZeroDivisionError") : Except String (List ℚ))
    else Except.ok (raw.map (fun w => w / total_weight))
  let acc ← portfolio_loop sqrtFn weights fetched 0
  let sharpe : ℚ := if acc.2.1 > 0 then acc.1 / acc.2.1 else 0
  pure ({ expected_return_pct := acc.1
          expected_volatility_pct := acc.2.1
          sharpe_ratio := sharpe
          max_drawdown_pct := acc.2.2 },
        (fetched.map Prod.fst).zip weights)

/-- One row of the mock trending-leaders listing. -/
structure TrendingEntry where
  address : String
  return_pct : ℚ
  sharpe_ratio : ℚ
  followers_count : Nat
  rank : Nat
deriving DecidableEq, Repr

/-- The `timeframe_map.get(timeframe, 7)` lookup of `get_trending_leaders`
(analytics_engine.py lines 677-678). -/
def timeframe_days (timeframe : String) : Nat :=
  if timeframe = "1d" then 1
  else if timeframe = "3d" then 3
  else if timeframe = "7d" then 7
  else if timeframe = "30d" then 30
  else 7

/-- The fabricated address of the i-th mock trending row: the Python format
string produces the digits of `i` zero-padded to width 40 behind `0x`. -/
def mock_address (i : Nat) : String :=
  let digits := Nat.toDigits 10 i
  "0x" ++ String.mk (List.replicate (40 - digits.length) '0') ++ String.mk digits

/-- Embeds `get_trending_leaders` (analytics_engine.py lines 668-693): the
trade ledger is never consulted — the result is `limit` fabricated mock rows
built from the loop index alone (the timeframe only feeds the unused
days conversion). -/
def get_trending_leaders (timeframe : String) (min_followers limit : Nat) :
    List TrendingEntry :=
  let _days := timeframe_days timeframe
  (List.range limit).map (fun i =>
    { address := mock_address i
      return_pct := 25.5 - (i : ℚ) * 2
      sharpe_ratio := 2.1 - (i : ℚ) * 0.1
      followers_count := min_followers + i * 5
      rank := i + 1 })

/-! ## Spec-side definitions for refinement comparisons -/

/-- The volatility component of the risk score as worded by the spec's
threshold table (§4.2): `>50→0.3, >30→0.2, >15→0.1, else 0`. -/
def volCompSpec (v : ℚ) : ℚ :=
  if v > 50 then 0.3 else if v > 30 then 0.2 else if v > 15 then 0.1 else 0

/-- The max-drawdown component of the risk score as worded by the spec's
threshold table (§4.2): `>30→0.4, >20→0.3, >10→0.2, >5→0.1, else 0`. -/
def ddCompSpec (d : ℚ) : ℚ :=
  if d > 30 then 0.4 else if d > 20 then 0.3 else if d > 10 then 0.2
  else if d > 5 then 0.1 else 0

/-- The `|VaR95|` component of the risk score as worded by the spec's
threshold table (§4.2): `>10→0.3, >5→0.2, >2→0.1, else 0`. -/
def varCompSpec (r : ℚ) : ℚ :=
  if |r| > 10 then 0.3 else if |r| > 5 then 0.2 else if |r| > 2 then 0.1 else 0

/-! ## Helper lemmas -/

set_option maxHeartbeats 1000000 in
/-- The score returned by `_assess_risk_level` is the plain sum of the three
spec components (the `min · 1` cap never binds). -/
lemma assess_snd_eq (v d r : ℚ) :
    (assess_risk_level v d r).2 = volCompSpec v + ddCompSpec d + varCompSpec r := by
  simp only [assess_risk_level, volCompSpec, ddCompSpec, varCompSpec]
  split_ifs <;> norm_num

/-- Range bounds for the three risk-score components. -/
lemma comp_bounds (v d r : ℚ) :
    (0 ≤ volCompSpec v ∧ volCompSpec v ≤ 0.3) ∧
      (0 ≤ ddCompSpec d ∧ ddCompSpec d ≤ 0.4) ∧
      (0 ≤ varCompSpec r ∧ varCompSpec r ≤ 0.3) := by
  unfold volCompSpec ddCompSpec varCompSpec
  refine ⟨?_, ?_, ?_⟩ <;> split_ifs <;> norm_num

set_option maxHeartbeats 1000000 in
/-- Characterization of `_assess_risk_level` as a level/score pair driven by
the component sum. -/
lemma assess_eq_pair (v d r : ℚ) :
    ∃ s : ℚ, s = volCompSpec v + ddCompSpec d + varCompSpec r ∧
      assess_risk_level v d r =
        ((if s ≥ 0.7 then RiskLevel.extreme
          else if s ≥ 0.5 then RiskLevel.high
          else if s ≥ 0.3 then RiskLevel.medium
          else RiskLevel.low), min s 1) := by
  refine ⟨_, ?_, rfl⟩
  unfold volCompSpec ddCompSpec varCompSpec
  split_ifs <;> norm_num

/-! ## Claims -/

/-- Claim C4: for all inputs, `_assess_risk_level` returns a score equal to the
sum of the three capped threshold components of the spec's table, lying in
`[0,1]` (so the `min`-clamp is the identity on it), and a level that is
`extreme` iff the score is ≥ 0.7, `high` iff it is in `[0.5, 0.7)`, `medium`
iff it is in `[0.3, 0.5)`, and `low` otherwise. -/
theorem C4_assess_risk (v d r : ℚ) :
    (assess_risk_level v d r).2 = volCompSpec v + ddCompSpec d + varCompSpec r ∧
    0 ≤ (assess_risk_level v d r).2 ∧ (assess_risk_level v d r).2 ≤ 1 ∧
    ((assess_risk_level v d r).1 = RiskLevel.extreme ↔ 0.7 ≤ (assess_risk_level v d r).2) ∧
    ((assess_risk_level v d r).1 = RiskLevel.high ↔
      0.5 ≤ (assess_risk_level v d r).2 ∧ (assess_risk_level v d r).2 < 0.7) ∧
    ((assess_risk_level v d r).1 = RiskLevel.medium ↔
      0.3 ≤ (assess_risk_level v d r).2 ∧ (assess_risk_level v d r).2 < 0.5) ∧
    ((assess_risk_level v d r).1 = RiskLevel.low ↔ (assess_risk_level v d r).2 < 0.3) := by
  obtain ⟨s, hs, hpair⟩ := assess_eq_pair v d r
  obtain ⟨⟨hv0, hv3⟩, ⟨hd0, hd4⟩, ⟨hr0, hr3⟩⟩ := comp_bounds v d r
  have h0 : 0 ≤ s := by rw [hs]; linarith
  have h1 : s ≤ 1 := by rw [hs]; linarith
  have hmin : min s 1 = s := min_eq_left h1
  rw [hpair]
  dsimp only
  rw [hmin]
  refine ⟨hs, h0, h1, ?_, ?_, ?_, ?_⟩ <;>
    · split_ifs with h7 h5 h3 <;> simp_all <;>
        first
          | linarith
          | (intro hc; linarith)
          | (constructor <;> intro hc <;> linarith)

/-- Claim C3, counterexample: `_calculate_market_metrics` on the empty trade
list does not return a zero-valued record — its `beta_to_market` field is 1. -/
theorem C3_counterexample :
    (calculate_market_metrics [] 30).beta_to_market = 1 ∧ (1 : ℚ) ≠ 0 :=
  ⟨rfl, one_ne_zero⟩

/-- Claim C3, amended: for the empty trade list, the performance and risk
calculators return all-zero records (risk level `low`), the trading-frequency
calculator returns the empty map, and the market-metrics calculator returns
its fixed neutral-default record (correlations 0, beta 1, alpha 0, tracking
error 0, information ratio 0); all four are total functions — none errors or
returns `None`. -/
theorem C3_empty_calculators (sqrtFn : ℚ → ℚ) (days : Nat) :
    calculate_performance_metrics [] days =
      { total_return_pct := 0, annualized_return_pct := 0, total_trades := 0,
        profitable_trades := 0, win_rate_pct := 0, avg_win_pct := 0,
        avg_loss_pct := 0, largest_win_pct := 0, largest_loss_pct := 0,
        profit_factor := 0, recovery_factor := 0, calmar_ratio := 0 } ∧
    calc_risk_metrics sqrtFn [] =
      { max_drawdown_pct := 0, current_drawdown_pct := 0, volatility_pct := 0,
        downside_deviation_pct := 0, value_at_risk_95_pct := 0,
        conditional_var_95_pct := 0, sharpe_ratio := 0, sortino_ratio := 0,
        risk_level := RiskLevel.low, risk_score := 0 } ∧
    calculate_market_metrics [] days =
      { correlation_to_btc := 0, correlation_to_eth := 0, beta_to_market := 1,
        alpha := 0, tracking_error_pct := 0, information_ratio := 0 } ∧
    analyze_trading_frequency [] = [] :=
  ⟨rfl, rfl, rfl, rfl⟩

/-- Claim C8: the function `predict_leader_performance` returns `None` (absent) whenever the
leader's fetched trade history has fewer than 20 trades, for every horizon,
every confidence threshold, and every continuation of the ML pipeline. -/
theorem C8_min_data_gate (rest : List Trade → Nat → ℚ → Option PredictionResult)
    (trades : List Trade) (horizon_days : Nat) (confidence_threshold : ℚ)
    (h : trades.length < 20) :
    predict_leader_performance rest trades horizon_days confidence_threshold = none := by
  simp [predict_leader_performance, h]

/-- Witness for C8: five trades' worth of history (here the 5-element list is
replaced by an empty one of length `0 < 20`; the bound is what matters). -/
theorem C8_min_data_gate_witness :
    ([] : List Trade).length < 20 ∧
      predict_leader_performance (fun _ _ _ => none) [] 30 (1 / 2) = none :=
  ⟨by decide, C8_min_data_gate (fun _ _ _ => none) [] 30 (1 / 2) (by decide)⟩

/-- Claim C9: for risk tolerance in `[0,1]`, `_generate_optimized_settings`
returns exactly the documented deterministic formulas (Python's `int()`
truncation coincides with `⌊·⌋` on these nonnegative arguments), and at the
scenario input `(0, 10, 20)` the documented concrete values. -/
theorem C9_optimizer_formulas (rt mdd tr : ℚ) (h0 : 0 ≤ rt) (h1 : rt ≤ 1) :
    (generate_optimized_settings rt mdd tr).copy_percentage = min (rt * 20) 15 ∧
    (generate_optimized_settings rt mdd tr).max_position_size = 1000 * (1 + rt) ∧
    (generate_optimized_settings rt mdd tr).stop_loss_percentage = mdd * 0.5 ∧
    (generate_optimized_settings rt mdd tr).take_profit_percentage = tr * 0.3 ∧
    (generate_optimized_settings rt mdd tr).risk_settings.max_trades_per_day =
      ⌊5 * (1 + rt)⌋ ∧
    (generate_optimized_settings rt mdd tr).risk_settings.max_consecutive_losses =
      ⌊3 * (2 - rt)⌋ ∧
    (generate_optimized_settings rt mdd tr).risk_settings.correlation_limit =
      0.8 - rt * 0.2 ∧
    (generate_optimized_settings 0 10 20).copy_percentage = 0 ∧
    (generate_optimized_settings 0 10 20).stop_loss_percentage = 5 ∧
    (generate_optimized_settings 0 10 20).take_profit_percentage = 6 ∧
    (generate_optimized_settings 0 10 20).risk_settings.max_trades_per_day = 5 ∧
    (generate_optimized_settings 0 10 20).risk_settings.max_consecutive_losses = 6 ∧
    (generate_optimized_settings 0 10 20).risk_settings.correlation_limit = 0.8 := by
  refine ⟨rfl, rfl, rfl, rfl, ?_, ?_, rfl, ?_, ?_, ?_, ?_, ?_, ?_⟩
  · simp only [generate_optimized_settings, pyInt]
    rw [if_pos (by nlinarith)]
  · simp only [generate_optimized_settings, pyInt]
    rw [if_pos (by nlinarith)]
  · norm_num [generate_optimized_settings]
  · norm_num [generate_optimized_settings]
  · norm_num [generate_optimized_settings]
  · norm_num [generate_optimized_settings, pyInt]
  · norm_num [generate_optimized_settings, pyInt]
  · norm_num [generate_optimized_settings]

/-- Witness for C9 at risk tolerance `1/2`. -/
theorem C9_optimizer_formulas_witness :
    0 ≤ (1 / 2 : ℚ) ∧ (1 / 2 : ℚ) ≤ 1 ∧
      (generate_optimized_settings (1 / 2) 10 20).risk_settings.max_trades_per_day =
        ⌊(5 : ℚ) * (1 + 1 / 2)⌋ :=
  ⟨by norm_num, by norm_num,
    (C9_optimizer_formulas (1 / 2) 10 20 (by norm_num) (by norm_num)).2.2.2.2.1⟩

/-- Claim C10: for an id absent from the backtest job table, the status query
returns `None` (not an error), and `execute_backtest` leaves the whole table
unchanged — it neither creates a record nor touches any existing job. -/
theorem C10_absent_backtest_id (st : BacktestState) (backtest_id : String)
    (t1 t2 : Nat) (h : st backtest_id = none) :
    get_backtest_status st backtest_id = none ∧
      execute_backtest st backtest_id t1 t2 = st := by
  refine ⟨h, ?_⟩
  unfold execute_backtest
  rw [h]

/-- Witness for C10 on the empty job table. -/
theorem C10_absent_backtest_id_witness :
    emptyBacktests ("missing") = none ∧
      (get_backtest_status emptyBacktests ("missing") = none ∧
        execute_backtest emptyBacktests ("missing") 1 2 = emptyBacktests) :=
  ⟨rfl, C10_absent_backtest_id emptyBacktests ("missing") 1 2 rfl⟩

/-! ## Remaining claims -/


lemma filter_pos_sum_nonneg (l : List ℚ) :
    0 ≤ (l.filter (fun p => 0 < p)).sum := by
  apply List.sum_nonneg
  intro a ha
  have := List.of_mem_filter ha
  simp only [decide_eq_true_eq] at this
  exact le_of_lt this

lemma sum_neg_of_all_neg : ∀ (m : List ℚ), m ≠ [] → (∀ x ∈ m, x < 0) → m.sum < 0 := by
  intro m
  induction m with
  | nil => intro h _; exact absurd rfl h
  | cons a t ih =>
      intro _ hall
      rw [List.sum_cons]
      rcases eq_or_ne t [] with ht | ht
      · subst ht; simpa using hall a (by simp)
      · have h1 := hall a (by simp)
        have h2 := ih ht (fun x hx => hall x (by simp [hx]))
        linarith

lemma perf_profit_factor_eq (trades : List Trade) (days : Nat) (h : trades ≠ []) :
    (calculate_performance_metrics trades days).profit_factor =
      (let winning := (trades.map perfPnl).filter (fun p => 0 < p)
       let losing := (trades.map perfPnl).filter (fun p => p < 0)
       let total_wins := if winning.length > 0 then winning.sum else 0
       let total_losses := if losing.length > 0 then |losing.sum| else 0
       if total_losses > 0 then total_wins / total_losses else 0) := by
  simp only [calculate_performance_metrics, if_neg h]

lemma perf_total_return_eq (trades : List Trade) (days : Nat) (h : trades ≠ []) :
    (calculate_performance_metrics trades days).total_return_pct =
      (trades.map perfPnl).sum / 10000 * 100 := by
  simp only [calculate_performance_metrics, if_neg h]

/-- Claim C1: the per-trade signed PnL computed in the performance path, the
risk path and the ML feature-extraction path is, uniformly, `size*price` for a
sell and `-(size*price)` otherwise (the spec rule `signedPnlSpec`), and the
total PnL of a nonempty trade set — surfaced as `total_return_pct`, i.e. total
PnL over the 10000 baseline times 100 — is the sum of the per-trade signed
PnL. -/
theorem C1_signed_pnl (t : Trade) (trades : List Trade) (days : Nat)
    (h : trades ≠ []) :
    perfPnl t = signedPnlSpec t ∧ riskPnl t = signedPnlSpec t ∧
    mlPnl t = signedPnlSpec t ∧
    (calculate_performance_metrics trades days).total_return_pct =
      (trades.map signedPnlSpec).sum / 10000 * 100 := by
  have hfun : perfPnl = signedPnlSpec := by
    funext u; unfold perfPnl signedPnlSpec; split_ifs <;> ring
  refine ⟨by rw [hfun], ?_, ?_, ?_⟩
  · unfold riskPnl signedPnlSpec; split_ifs <;> ring
  · unfold mlPnl signedPnlSpec; split_ifs <;> ring
  · rw [perf_total_return_eq trades days h, hfun]

/-- Witness for C1 on a one-element trade list. -/
theorem C1_witness :
    (([⟨1, "BTC", Side.sell, 2, 100, 0⟩] : List Trade) ≠ []) ∧
      (perfPnl ⟨1, "BTC", Side.sell, 2, 100, 0⟩ =
          signedPnlSpec ⟨1, "BTC", Side.sell, 2, 100, 0⟩ ∧
        riskPnl ⟨1, "BTC", Side.sell, 2, 100, 0⟩ =
          signedPnlSpec ⟨1, "BTC", Side.sell, 2, 100, 0⟩ ∧
        mlPnl ⟨1, "BTC", Side.sell, 2, 100, 0⟩ =
          signedPnlSpec ⟨1, "BTC", Side.sell, 2, 100, 0⟩ ∧
        (calculate_performance_metrics [⟨1, "BTC", Side.sell, 2, 100, 0⟩] 30).total_return_pct =
          (([⟨1, "BTC", Side.sell, 2, 100, 0⟩] : List Trade).map signedPnlSpec).sum
            / 10000 * 100) :=
  ⟨by decide, C1_signed_pnl _ _ 30 (by decide)⟩

/-- Claim C2: the profit factor returned by `_calculate_performance_metrics`
is always nonnegative (and, being a rational, finite); it equals the sum of
the positive per-trade PnLs divided by the absolute value of the sum of the
negative per-trade PnLs whenever at least one trade has negative PnL, and it
is exactly 0 when no trade has negative PnL. -/
theorem C2_profit_factor (trades : List Trade) (days : Nat) :
    0 ≤ (calculate_performance_metrics trades days).profit_factor ∧
    ((∃ t ∈ trades, perfPnl t < 0) →
      (calculate_performance_metrics trades days).profit_factor =
        ((trades.map perfPnl).filter (fun p => 0 < p)).sum /
          |((trades.map perfPnl).filter (fun p => p < 0)).sum|) ∧
    ((∀ t ∈ trades, 0 ≤ perfPnl t) →
      (calculate_performance_metrics trades days).profit_factor = 0) := by
  rcases eq_or_ne trades [] with hemp | hemp
  · subst hemp
    refine ⟨le_refl 0, ?_, fun _ => rfl⟩
    rintro ⟨t, ht, -⟩
    exact absurd ht (List.not_mem_nil t)
  · rw [perf_profit_factor_eq trades days hemp]
    dsimp only
    set W := (trades.map perfPnl).filter (fun p => 0 < p) with hW
    set L := (trades.map perfPnl).filter (fun p => p < 0) with hL
    have hWsum : (if W.length > 0 then W.sum else 0) = W.sum := by
      rcases W with _ | ⟨a, t⟩ <;> simp
    rcases eq_or_ne L [] with hLnil | hLnil
    · rw [hLnil]
      simp only [List.length_nil, gt_iff_lt, lt_self_iff_false, if_false]
      refine ⟨by trivial, ?_, fun _ => by trivial⟩
      rintro ⟨t, ht, hneg⟩
      have : perfPnl t ∈ L := by
        rw [hL]
        refine List.mem_filter.mpr ⟨List.mem_map_of_mem perfPnl ht, by simpa using hneg⟩
      rw [hLnil] at this
      exact absurd this (List.not_mem_nil _)
    · have hallneg : ∀ x ∈ L, x < 0 := by
        intro x hx
        have := List.of_mem_filter hx
        simpa using this
      have hLsum : L.sum < 0 := sum_neg_of_all_neg L hLnil hallneg
      have hLabs : (0:ℚ) < |L.sum| := abs_pos.mpr (ne_of_lt hLsum)
      have hLlen : L.length > 0 := List.length_pos.mpr hLnil
      rw [if_pos hLlen, if_pos hLabs, hWsum]
      refine ⟨div_nonneg (filter_pos_sum_nonneg _) (le_of_lt hLabs), fun _ => rfl, ?_⟩
      intro hnoneg
      exfalso
      obtain ⟨x, hxL⟩ := List.exists_mem_of_ne_nil L hLnil
      have hxneg := hallneg x hxL
      have hxmap : x ∈ trades.map perfPnl := List.mem_of_mem_filter hxL
      obtain ⟨t, ht, rfl⟩ := List.mem_map.mp hxmap
      exact absurd hxneg (not_lt.mpr (hnoneg t ht))

/-- Witness for C2 on a two-trade list containing a losing (buy) trade. -/
theorem C2_witness :
    (∃ t ∈ ([⟨1, "A", Side.buy, 1, 50, 0⟩, ⟨2, "A", Side.sell, 1, 80, 10⟩] : List Trade),
        perfPnl t < 0) ∧
      (calculate_performance_metrics
          [⟨1, "A", Side.buy, 1, 50, 0⟩, ⟨2, "A", Side.sell, 1, 80, 10⟩] 30).profit_factor =
        (((([⟨1, "A", Side.buy, 1, 50, 0⟩, ⟨2, "A", Side.sell, 1, 80, 10⟩] : List Trade).map
            perfPnl).filter (fun p => 0 < p)).sum /
          |((([⟨1, "A", Side.buy, 1, 50, 0⟩, ⟨2, "A", Side.sell, 1, 80, 10⟩] : List Trade).map
            perfPnl).filter (fun p => p < 0)).sum|) :=
  ⟨⟨⟨1, "A", Side.buy, 1, 50, 0⟩, List.mem_cons_self _ _, by simp [perfPnl]⟩,
    (C2_profit_factor [⟨1, "A", Side.buy, 1, 50, 0⟩, ⟨2, "A", Side.sell, 1, 80, 10⟩] 30).2.1
      ⟨⟨1, "A", Side.buy, 1, 50, 0⟩, List.mem_cons_self _ _, by simp [perfPnl]⟩⟩

/-! ## C5 development -/

lemma length_insertByTime (p : Nat × ℚ) :
    ∀ l : List (Nat × ℚ), (insertByTime p l).length = l.length + 1 := by
  intro l
  induction l with
  | nil => rfl
  | cons q qs ih =>
      unfold insertByTime
      split_ifs <;> simp [ih]

lemma length_sortByTime : ∀ l : List (Nat × ℚ), (sortByTime l).length = l.length := by
  intro l
  induction l with
  | nil => rfl
  | cons p ps ih => simp [sortByTime, length_insertByTime, ih]

lemma length_cumsum : ∀ l : List ℚ, (cumsum l).length = l.length := by
  intro l
  induction l with
  | nil => rfl
  | cons p ps ih => simp [cumsum, ih]

lemma map_max_eq_self (c : ℚ) (l : List ℚ) (h : ∀ x ∈ l, c ≤ x) :
    l.map (fun m => max c m) = l := by
  induction l with
  | nil => rfl
  | cons a t ih =>
      simp only [List.map_cons, List.cons.injEq]
      exact ⟨max_eq_right (h a (by simp)), ih (fun x hx => h x (by simp [hx]))⟩

lemma runningMax_of_chain : ∀ l : List ℚ, List.Chain' (· ≤ ·) l → runningMax l = l := by
  intro l hl
  induction l with
  | nil => rfl
  | cons c cs ih =>
      have hp := List.chain'_iff_pairwise.mp hl
      rw [List.pairwise_cons] at hp
      have ih' : runningMax cs = cs := ih (List.chain'_iff_pairwise.mpr hp.2)
      show c :: (runningMax cs).map (fun m => max c m) = c :: cs
      rw [ih', map_max_eq_self c cs hp.1]

lemma zipWith_sub_self : ∀ l : List ℚ,
    List.zipWith (fun c m => c - m) l l = l.map (fun _ => (0 : ℚ)) := by
  intro l
  induction l with
  | nil => rfl
  | cons a t ih => simp [ih]

lemma foldl_min_zero : ∀ t : List ℚ, (t.map (fun _ => (0 : ℚ))).foldl min 0 = 0 := by
  intro t
  induction t with
  | nil => rfl
  | cons a s ih => simpa using ih

lemma listMin_map_zero (l : List ℚ) (h : l ≠ []) :
    listMin (l.map (fun _ => (0 : ℚ))) = 0 := by
  rcases l with _ | ⟨a, t⟩
  · exact absurd rfl h
  · show (t.map (fun _ => (0 : ℚ))).foldl min 0 = 0
    exact foldl_min_zero t

/-- Claim C5: the max-drawdown percentage of `_calculate_max_drawdown_pct` —
time-sorted cumulative PnL, running maximum, drawdown per point, absolute
minimum over the 10000 baseline times 100 — is nonnegative for every trade
set, and is exactly 0 whenever the cumulative-PnL sequence is monotonically
nondecreasing (in particular, whenever it is increasing). -/
theorem C5_max_drawdown (rows : List (Nat × ℚ)) :
    0 ≤ calculate_max_drawdown_pct rows ∧
      (List.Chain' (· ≤ ·) (cumsum ((sortByTime rows).map Prod.snd)) →
        calculate_max_drawdown_pct rows = 0) := by
  constructor
  · unfold calculate_max_drawdown_pct
    split_ifs
    · exact le_refl 0
    · dsimp only
      positivity
  · intro hchain
    rcases eq_or_ne rows [] with hemp | hemp
    · simp [calculate_max_drawdown_pct, hemp]
    · have hne : cumsum ((sortByTime rows).map Prod.snd) ≠ [] := by
        intro hc
        have hlen : (cumsum ((sortByTime rows).map Prod.snd)).length = rows.length := by
          rw [length_cumsum, List.length_map, length_sortByTime]
        rw [hc] at hlen
        exact hemp (List.length_eq_zero.mp hlen.symm)
      unfold calculate_max_drawdown_pct
      rw [if_neg hemp]
      dsimp only
      rw [runningMax_of_chain _ hchain, zipWith_sub_self,
        listMin_map_zero _ hne, abs_zero]
      norm_num

/-- Witness for C5 on two gaining rows, whose cumulative PnL is increasing. -/
theorem C5_witness :
    0 ≤ calculate_max_drawdown_pct [(0, 1), (1, 2)] ∧
      (List.Chain' (· ≤ ·) (cumsum ((sortByTime [(0, 1), (1, 2)]).map Prod.snd)) ∧
        calculate_max_drawdown_pct [(0, 1), (1, 2)] = 0) :=
  ⟨(C5_max_drawdown [(0, 1), (1, 2)]).1,
    by norm_num [sortByTime, insertByTime, cumsum, List.chain'_cons],
    (C5_max_drawdown [(0, 1), (1, 2)]).2
      (by norm_num [sortByTime, insertByTime, cumsum, List.chain'_cons])⟩

/-! ## C6 development -/

/-- Fixed configuration used by the C6 counterexample run. -/
def c6_config : BacktestConfig :=
  { leader_address := "0xleader", start_date := 0, end_date := 100,
    initial_capital := 10000, copy_percentage := 10 }

/-- Job table after `start` and one full execution (t1 = 1, t2 = 2). -/
def c6_state1 : BacktestState :=
  execute_backtest (start_backtest emptyBacktests ("job") c6_config 0) ("job") 1 2

/-- Job table after a second `execute` of the same id (t1 = 5, t2 = 6). -/
def c6_state2 : BacktestState :=
  execute_backtest c6_state1 ("job") 5 6

/-- Claim C6, counterexample: after one full execution the job's
`started_at` is 1; a second `execute_backtest` on the same (already
terminal) id is not a no-op — it overwrites `started_at` to 5 and
`completed_at` to 6. -/
theorem C6_counterexample :
    (get_backtest_status c6_state1 ("job")).map BacktestJob.status
        = some JobStatus.completed ∧
      (get_backtest_status c6_state1 ("job")).map BacktestJob.started_at
        = some (some 1) ∧
      (get_backtest_status c6_state2 ("job")).map BacktestJob.started_at
        = some (some 5) ∧
      (get_backtest_status c6_state2 ("job")).map BacktestJob.completed_at
        = some (some 6) ∧
      some (some 5) ≠ some (some (1 : Nat)) := by
  refine ⟨?_, ?_, ?_, ?_, by simp⟩ <;>
    simp [c6_state2, c6_state1, c6_config, get_backtest_status, execute_backtest,
      execute_begin, execute_finish, start_backtest, emptyBacktests]

/-- Claim C6, amended: a backtest job is created in state `queued` (the only
initial state) with progress 0 and no timestamps; executing it passes it
through `running` (recording `started_at`) to the terminal state `completed`
(recording `completed_at` and the results payload), and the error handler
moves a present job to `failed`.  The transitions are not guarded by the
current status: `execute_backtest` on any present job — already running or
terminal included — re-runs it and overwrites `started_at`, `completed_at`
and the results (shown for an arbitrary prior record `j`). -/
theorem C6_backtest_lifecycle (st : BacktestState) (bid : String)
    (cfg : BacktestConfig) (j : BacktestJob) (now t1 t2 : Nat) (err : String)
    (hj : st bid = some j) :
    (start_backtest st bid cfg now) bid =
      some { status := JobStatus.queued, config := cfg, created_at := now,
             progress := 0, started_at := none, completed_at := none,
             results := none, error := none } ∧
    (execute_begin st bid t1) bid =
      some { j with status := JobStatus.running, started_at := some t1 } ∧
    (execute_fail st bid err) bid =
      some { j with status := JobStatus.failed, error := some err } ∧
    (execute_backtest st bid t1 t2) bid =
      some { j with status := JobStatus.completed, started_at := some t1,
                    completed_at := some t2,
                    results := some mock_backtest_results } := by
  refine ⟨?_, ?_, ?_, ?_⟩
  · simp [start_backtest]
  · simp [execute_begin, hj]
  · simp [execute_fail, hj]
  · simp [execute_backtest, execute_begin, execute_finish, hj]

/-- Witness for C6 on a concrete start-then-execute run. -/
theorem C6_backtest_lifecycle_witness :
    (start_backtest (start_backtest emptyBacktests ("job") c6_config 0) "job" c6_config 0) "job" =
        some { status := JobStatus.queued, config := c6_config, created_at := 0,
               progress := 0, started_at := none, completed_at := none,
               results := none, error := none } ∧
      (execute_backtest (start_backtest emptyBacktests ("job") c6_config 0) ("job") 1 2) "job" =
        some { status := JobStatus.completed, config := c6_config, created_at := 0,
               progress := 0, started_at := some 1, completed_at := some 2,
               results := some mock_backtest_results, error := none } :=
  ⟨(C6_backtest_lifecycle (start_backtest emptyBacktests ("job") c6_config 0) ("job") c6_config
      { status := JobStatus.queued, config := c6_config, created_at := 0,
        progress := 0, started_at := none, completed_at := none,
        results := none, error := none } 0 1 2 ("e") (by simp [start_backtest])).1,
    (C6_backtest_lifecycle (start_backtest emptyBacktests ("job") c6_config 0) ("job") c6_config
      { status := JobStatus.queued, config := c6_config, created_at := 0,
        progress := 0, started_at := none, completed_at := none,
        results := none, error := none } 0 1 2 ("e") (by simp [start_backtest])).2.2.2⟩

/-! ## C7 development -/

/-- Claim C7, counterexample: a Trade Ledger Accessor exception reaching the
risk-metrics facade operation propagates to the caller instead of being
converted into the no-data result; and the trending-leaders operation never
reports no-data at all — with no ledger consultation it returns its requested
number of fabricated mock rows (here 20), a non-empty result. -/
theorem C7_counterexample :
    calculate_risk_metrics (fun _ => 0) (Except.error ("db down")) =
        Except.error ("db down") ∧
      (Except.error ("db down") : Except String (Option RiskMetrics)) ≠
        Except.ok none ∧
      (get_trending_leaders ("7d") 5 20).length = 20 ∧
      get_trending_leaders ("7d") 5 20 ≠ [] :=
  ⟨rfl, by simp, by simp [get_trending_leaders],
    List.length_pos.mp (by simp [get_trending_leaders])⟩

lemma compare_leaders_all_empty (sqrtFn : ℚ → ℚ) (days : Nat) :
    ∀ addrs : List String,
      compare_leaders sqrtFn (addrs.map (fun a => (a, Except.ok []))) days =
        Except.ok [] := by
  intro addrs
  induction addrs with
  | nil => rfl
  | cons a rest ih =>
      simp only [List.map_cons, compare_leaders, ih]
      rfl

/-- Multi-leader comparison omits an address whose trade set is empty wherever
it occurs in the request, leaving the rest of the comparison unchanged. -/
lemma compare_leaders_skips_empty (sqrtFn : ℚ → ℚ) (days : Nat) :
    ∀ (pre post : List (String × Except String (List Trade))) (a : String),
      compare_leaders sqrtFn (pre ++ (a, Except.ok []) :: post) days =
        compare_leaders sqrtFn (pre ++ post) days := by
  intro pre
  induction pre with
  | nil =>
      intro post a
      simp only [List.nil_append, compare_leaders]
      cases h : compare_leaders sqrtFn post days <;>
        simp [bind, Except.bind, pure, Except.pure, h]
  | cons b pre' ih =>
      intro post a
      rcases b with ⟨baddr, bres⟩
      simp only [List.cons_append, compare_leaders, List.append_eq, ih]

lemma portfolio_loop_all_empty (sqrtFn : ℚ → ℚ) (ws : List ℚ) :
    ∀ (addrs : List String) (i : Nat),
      portfolio_loop sqrtFn ws (addrs.map (fun a => (a, Except.ok []))) i =
        Except.ok (0, 0, 0) := by
  intro addrs
  induction addrs with
  | nil => intro i; rfl
  | cons a rest ih =>
      intro i
      simp [portfolio_loop, ih, bind, Except.bind, pure, Except.pure]

/-- Portfolio analysis advances past an address with an empty trade set with
zero contribution: the loop result is that of the remaining addresses, with
the weight index advanced the way Python's `enumerate` advances it. -/
lemma portfolio_loop_skip_empty (sqrtFn : ℚ → ℚ) (ws : List ℚ) (a : String)
    (rest : List (String × Except String (List Trade))) (i : Nat) :
    portfolio_loop sqrtFn ws ((a, Except.ok []) :: rest) i =
      portfolio_loop sqrtFn ws rest (i + 1) := by
  cases h : portfolio_loop sqrtFn ws rest (i + 1) with
  | error err => simp [portfolio_loop, bind, Except.bind, pure, Except.pure, h]
  | ok acc =>
      rcases acc with ⟨x, y, z⟩
      simp [portfolio_loop, bind, Except.bind, pure, Except.pure, h]

/-- Claim C7, amended: facade operations return explicit no-data or empty
results for empty trade sets where they report per-address data at all —
single-leader analysis and the risk-metrics query return `None`, multi-leader
comparison omits an empty-trade address wherever it occurs in the request
(empty map when all are empty), portfolio analysis advances past an
empty-trade address with zero contribution to the weighted metrics, and
follower optimization reports the zero-valued records as its current metrics.
Trending leaders never consults the trade ledger: it returns its requested
number of fabricated mock rows (non-empty whenever the limit is positive),
never a no-data result.  An exception raised by the Trade Ledger Accessor is
caught and converted into the no-data result at the facade only in
single-leader analysis (shown for each of its four ledger reads); in the
risk-metrics query, multi-leader comparison and portfolio analysis it
propagates to the caller. -/
theorem C7_facade_error_handling (sqrtFn : ℚ → ℚ) (addr e a2 tf : String)
    (m : AggregateStats) (tr : List Trade)
    (tradesRes : Except String (List Trade))
    (allocRes : Except String (List (String × ℚ)))
    (tsRes : Except String TimeSeriesData)
    (al : List (String × ℚ)) (days fid i mf limit : Nat)
    (addrs : List String) (ws : List ℚ) (rt mdd trt : ℚ)
    (pre post rest : List (String × Except String (List Trade)))
    (hws : ws ≠ []) (hsum : ws.sum ≠ 0) :
    analyze_leader_performance sqrtFn addr (Except.error e) tradesRes allocRes tsRes days
        = none ∧
    analyze_leader_performance sqrtFn addr (Except.ok none) tradesRes allocRes tsRes days
        = none ∧
    analyze_leader_performance sqrtFn addr (Except.ok (some m)) (Except.error e)
        allocRes tsRes days = none ∧
    analyze_leader_performance sqrtFn addr (Except.ok (some m)) (Except.ok tr)
        (Except.error e) tsRes days = none ∧
    analyze_leader_performance sqrtFn addr (Except.ok (some m)) (Except.ok tr)
        (Except.ok al) (Except.error e) days = none ∧
    analyze_leader_performance sqrtFn addr (Except.ok (some m)) (Except.ok [])
        allocRes tsRes days = none ∧
    calculate_risk_metrics sqrtFn (Except.ok []) = Except.ok none ∧
    calculate_risk_metrics sqrtFn (Except.error e) = Except.error e ∧
    compare_leaders sqrtFn (addrs.map (fun a => (a, Except.ok []))) days =
      Except.ok [] ∧
    compare_leaders sqrtFn (pre ++ (a2, Except.ok []) :: post) days =
      compare_leaders sqrtFn (pre ++ post) days ∧
    compare_leaders sqrtFn ((a2, Except.error e) :: rest) days = Except.error e ∧
    analyze_portfolio sqrtFn (addrs.map (fun a => (a, Except.ok []))) (some ws) =
      Except.ok
        ({ expected_return_pct := 0, expected_volatility_pct := 0,
           sharpe_ratio := 0, max_drawdown_pct := 0 },
          addrs.zip (ws.map (fun w => w / ws.sum))) ∧
    portfolio_loop sqrtFn ws ((a2, Except.ok []) :: rest) i =
      portfolio_loop sqrtFn ws rest (i + 1) ∧
    analyze_portfolio sqrtFn ((a2, Except.error e) :: rest) (some ws) =
      Except.error e ∧
    (optimize_follower_strategy sqrtFn fid [] rt mdd trt).current_performance =
      empty_performance_metrics ∧
    (optimize_follower_strategy sqrtFn fid [] rt mdd trt).current_risk =
      empty_risk_metrics ∧
    (get_trending_leaders tf mf limit).length = limit ∧
    (0 < limit → get_trending_leaders tf mf limit ≠ []) := by
  refine ⟨rfl, rfl, rfl, ?_, ?_, rfl, rfl, rfl,
    compare_leaders_all_empty sqrtFn days addrs,
    compare_leaders_skips_empty sqrtFn days pre post a2, rfl,
    ?_, portfolio_loop_skip_empty sqrtFn ws a2 rest i, ?_, rfl, rfl,
    by simp [get_trending_leaders], ?_⟩
  · unfold analyze_leader_performance
    dsimp only
    split_ifs <;> rfl
  · unfold analyze_leader_performance
    dsimp only
    split_ifs <;> rfl
  · unfold analyze_portfolio
    simp only [bind, Except.bind, pure, Except.pure]
    rw [if_neg hws]
    rw [if_neg hsum]
    rw [portfolio_loop_all_empty sqrtFn (ws.map (fun w => w / ws.sum)) addrs 0]
    simp [List.map_map, Function.comp_def]
  · unfold analyze_portfolio
    simp only [bind, Except.bind, pure, Except.pure]
    rw [if_neg hws]
    rw [if_neg hsum]
    rfl
  · intro hpos
    refine List.length_pos.mp ?_
    have hlen2 : (get_trending_leaders tf mf limit).length = limit := by
      simp [get_trending_leaders]
    rw [hlen2]
    exact hpos

/-- Witness for C7 at concrete inputs (one address, weight list `[1]`). -/
theorem C7_facade_error_handling_witness :
    (([1] : List ℚ) ≠ []) ∧ (([1] : List ℚ).sum ≠ 0) ∧
      calculate_risk_metrics (fun _ => 0) (Except.error ("boom")) =
        Except.error ("boom") :=
  ⟨by simp, by norm_num,
    (C7_facade_error_handling (fun _ => 0) ("a") ("boom") ("b") ("7d")
      { trading_days := 0, total_trades := 0, total_pnl := 0, win_rate := 0,
        sharpe_ratio := 0, max_drawdown := 0 }
      [] (Except.ok []) (Except.ok []) (Except.ok ⟨[], [], [], [], []⟩) [] 30 1 0 5 20
      ["a"] [1] 0 10 20 [] [] [] (by simp) (by norm_num)).2.2.2.2.2.2.2.1⟩

end Hyperlit
